import Mathlib

/-
Verification development for the DocProcessor SKU-matching service
(backend/services/sku_matcher.py, with the data model of backend/models.py
and the settings of backend/config.py).

The Python service is embedded shallowly:

* pydantic models become Lean structures; Python `Optional` fields become
  `Option`; `Decimal` and `float` scores become `ℚ` (the operations the
  service applies to them — comparisons, `min`, `max` — are exact, so no
  rounding behaviour is lost); `date` becomes a plain year/month/day record.
* the external llama-index engine (`VectorStoreIndex.from_documents` /
  `as_retriever`) is an opaque parameter: an `IndexEngine` turns the list of
  constructed documents into a `Retriever`, and a `Retriever` maps a query
  string either to a raised-exception message or to a ranked candidate list.
* the one piece of mutable state, `self.catalog_retriever`, is threaded
  explicitly.  `match_line_items` reads that attribute several times (once
  in `is_catalog_loaded` at line 68, and once per item at line 74); to model
  a concurrent `create_catalog_index` interleaving at the `await` points,
  `match_line_items_env` receives the value of the attribute at its k-th
  read as a function `field : Nat → Option Retriever` (read 0 is the loaded
  check, read k is item k).  The single-threaded run is the constant field.
* raised exceptions become `Except` errors carrying the Python exception
  class and message, so the distinct `raise` sites stay distinguishable.
* alongside its result, the matcher returns the list of retrieval queries it
  actually issued, so "performs zero retrieval calls" is a provable fact.
-/

/-- Python exception classes that the service raises: `ValueError` at
line 69 of sku_matcher.py, and the bare generic `Exception` at lines 62
and 111. -/
inductive PyClass where
  | valueError
  | exception
deriving DecidableEq

/-- A raised Python exception: its class and its message string. -/
structure PyError where
  cls : PyClass
  msg : String
deriving DecidableEq

/-- Calendar date (models.py uses `datetime.date`; only carried through). -/
structure PyDate where
  year : Nat
  month : Nat
  day : Nat
deriving DecidableEq

/-- models.RFQLineItem: one parsed RFQ line.  pydantic validates
`quantity ≥ 0` and `unit_price ≥ 0`, so quantity is a `Nat` and the price a
rational. -/
structure RFQLineItem where
  rfq_id : String
  line_item : String
  quantity : Nat
  unit_price : ℚ
  date_ : PyDate
deriving DecidableEq

/-- models.RFQOutput: the batch of line items handed to the matcher. -/
structure RFQOutput where
  line_items : List RFQLineItem
deriving DecidableEq

/-- models.EnrichedLineItem.  The four match fields and `match_confidence`
are `Optional` in the pydantic model with default `None`, hence `Option`
with default `none` here. -/
structure EnrichedLineItem where
  rfq_id : String
  original_line_item : String
  quantity : Nat
  unit_price : Option ℚ
  date_ : PyDate
  matched_sku : Option String := none
  standard_name : Option String := none
  category : Option String := none
  manufacturer : Option String := none
  match_confidence : Option ℚ := none
deriving DecidableEq

/-- models.EnrichedRFQ: the enriched batch. -/
structure EnrichedRFQ where
  line_items : List EnrichedLineItem
deriving DecidableEq

/-- One row of the uploaded catalog DataFrame, with the six columns that
sku_matcher.py reads (`row[...]` at lines 17-23). -/
structure CatalogRow where
  sku : String
  standard_name : String
  category : String
  manufacturer : String
  description : String
  unit_price : ℚ
deriving DecidableEq

/-- The catalog DataFrame: its column names (checked against the required
list) and its rows. -/
structure DataFrame where
  columns : List String
  rows : List CatalogRow
deriving DecidableEq

/-- The metadata dict attached to an indexed document.  Python
`metadata.get(key)` returns `None` for a missing key, so every field is an
`Option`; the builder always populates all five. -/
structure DocMetadata where
  sku : Option String := none
  standard_name : Option String := none
  category : Option String := none
  manufacturer : Option String := none
  unit_price : Option ℚ := none
deriving DecidableEq

/-- llama_index Document as the builder constructs it: searchable text plus
the metadata dict. -/
structure Document where
  text : String
  metadata : DocMetadata
deriving DecidableEq

/-- A node returned by the retriever: metadata of the matched document and
an optional similarity score (the code guards with
`hasattr(top_match, ...)` / `is not None`, so absence is representable). -/
structure RetrievedNode where
  metadata : DocMetadata
  score : Option ℚ
deriving DecidableEq

/-- The black-box similarity retriever: a query string either raises (the
message of the underlying exception) or yields a ranked candidate list. -/
abbrev Retriever := String → Except String (List RetrievedNode)

/-- The black-box index engine (`VectorStoreIndex.from_documents` composed
with `as_retriever(similarity_top_k=1)`): from the documents the builder
constructed, either raise or produce a retriever. -/
abbrev IndexEngine := List Document → Except String Retriever

/-- sku_matcher.py lines 16-26: the document built for one catalog row —
text is standard_name, manufacturer, description space-joined; metadata is
the full entry. -/
def mkCatalogDocument (row : CatalogRow) : Document :=
  { text := row.standard_name ++ " " ++ row.manufacturer ++ " " ++ row.description
    metadata :=
      { sku := some row.sku
        standard_name := some row.standard_name
        category := some row.category
        manufacturer := some row.manufacturer
        unit_price := some row.unit_price } }

/-- sku_matcher.create_product_catalog_index (lines 11-29): build one
document per row in order, then hand them to the engine. -/
def create_product_catalog_index (engine : IndexEngine) (rows : List CatalogRow) :
    Except String Retriever :=
  engine (rows.map mkCatalogDocument)

/-- config.Settings: the one field sku_matcher.py reads, with its default
from config.py lines 62-65. -/
structure Settings where
  catalog_required_columns : List String :=
    ["sku", "standard_name", "category", "manufacturer", "description", "unit_price"]

/-- config.get_settings (defaults; environment overrides are out of scope). -/
def get_settings : Settings := {}

/-- SKUMatcherService state: the settings captured in `__init__` and the
mutable `catalog_retriever` attribute (line 38), initially `None`. -/
structure SKUMatcherService where
  settings : Settings
  catalog_retriever : Option Retriever

/-- SKUMatcherService.__init__ (lines 36-39). -/
def mkSKUMatcherService : SKUMatcherService :=
  { settings := get_settings, catalog_retriever := none }

/-- SKUMatcherService.is_catalog_loaded (lines 113-115). -/
def is_catalog_loaded (svc : SKUMatcherService) : Bool :=
  svc.catalog_retriever.isSome

/-- Line 52 of sku_matcher.py: the required columns missing from the
uploaded DataFrame. -/
def missing_columns (svc : SKUMatcherService) (df : DataFrame) : List String :=
  svc.settings.catalog_required_columns.filter (fun col => ¬ df.columns.contains col)

/-- SKUMatcherService.create_catalog_index (lines 45-62).  Missing columns
raise a `ValueError` inside the `try`, and any exception of the block —
that `ValueError` or a failure of the engine — is re-raised at line 62 as a
generic `Exception` prefixed with "Error creating catalog index: ".  The
assignment to `self.catalog_retriever` (line 56) happens only when the
engine call returned, so the pair holds the result together with the state
after the call. -/
def create_catalog_index (engine : IndexEngine) (svc : SKUMatcherService)
    (df : DataFrame) : Except PyError Nat × SKUMatcherService :=
  if missing_columns svc df ≠ [] then
    (Except.error
      ⟨PyClass.exception,
        "Error creating catalog index: " ++ "Missing required columns: " ++
          String.intercalate ", " (missing_columns svc df)⟩,
      svc)
  else
    match create_product_catalog_index engine df.rows with
    | Except.error e =>
        (Except.error ⟨PyClass.exception, "Error creating catalog index: " ++ e⟩, svc)
    | Except.ok retriever =>
        (Except.ok df.rows.length, { svc with catalog_retriever := some retriever })

/-- Line 81 of sku_matcher.py: `max(0.0, min(1.0, float(confidence)))`. -/
def clampConfidence (q : ℚ) : ℚ := max 0 (min 1 q)

/-- Lines 76-104 of sku_matcher.py: turn one line item and the candidate
list its retrieval returned into the enriched item.  Non-empty list: take
the top candidate, default an absent score to 0.0, clamp, copy the
metadata fields through `metadata.get`.  Empty list: the four match fields
keep their `None` default and the confidence is the explicit 0.0. -/
def enrich_item (item : RFQLineItem) (nodes : List RetrievedNode) : EnrichedLineItem :=
  match nodes with
  | top_match :: _ =>
      let confidence := clampConfidence (top_match.score.getD 0)
      { rfq_id := item.rfq_id
        original_line_item := item.line_item
        quantity := item.quantity
        unit_price := some item.unit_price
        date_ := item.date_
        matched_sku := top_match.metadata.sku
        standard_name := top_match.metadata.standard_name
        category := top_match.metadata.category
        manufacturer := top_match.metadata.manufacturer
        match_confidence := some confidence }
  | [] =>
      { rfq_id := item.rfq_id
        original_line_item := item.line_item
        quantity := item.quantity
        unit_price := some item.unit_price
        date_ := item.date_
        match_confidence := some 0 }

/-- The loop of lines 72-105.  `field k` is the value of the
`self.catalog_retriever` attribute at its k-th read; the item at read
position k is retrieved against exactly that value (line 74 re-reads the
attribute on every iteration).  If the attribute were `None` at a read,
calling `.aretrieve` on it would raise an `AttributeError`; a failing
retrieval propagates its message.  The second component records the
retrieval queries actually issued, in order. -/
def match_go (field : Nat → Option Retriever) :
    Nat → List RFQLineItem → Except String (List EnrichedLineItem) × List String
  | _, [] => (Except.ok [], [])
  | k, item :: rest =>
    match field k with
    | none => (Except.error "NoneType object has no attribute aretrieve", [])
    | some retriever =>
      match retriever item.line_item with
      | Except.error e => (Except.error e, [item.line_item])
      | Except.ok nodes =>
        match match_go field (k + 1) rest with
        | (Except.error e, tr) => (Except.error e, item.line_item :: tr)
        | (Except.ok enriched, tr) =>
            (Except.ok (enrich_item item nodes :: enriched), item.line_item :: tr)

/-- SKUMatcherService.match_line_items (lines 64-111) against an attribute
read history `field`.  Read 0 is the `is_catalog_loaded` check of line 68,
raising the `ValueError` of line 69 outside the `try`; reads 1.. are the
per-item reads of line 74.  Any exception inside the `try` is re-raised at
line 111 as a generic `Exception` prefixed with "Error matching SKUs: ".
The second component is the list of retrieval queries issued. -/
def match_line_items_env (field : Nat → Option Retriever) (rfq_data : RFQOutput) :
    Except PyError EnrichedRFQ × List String :=
  if (field 0).isSome then
    match match_go field 1 rfq_data.line_items with
    | (Except.error e, tr) =>
        (Except.error ⟨PyClass.exception, "Error matching SKUs: " ++ e⟩, tr)
    | (Except.ok items, tr) => (Except.ok ⟨items⟩, tr)
  else
    (Except.error ⟨PyClass.valueError, "Product catalog not loaded"⟩, [])

/-- match_line_items in a run with no interleaved catalog replacement:
every read of `self.catalog_retriever` yields the service state's value. -/
def match_line_items (svc : SKUMatcherService) (rfq_data : RFQOutput) :
    Except PyError EnrichedRFQ :=
  (match_line_items_env (fun _ => svc.catalog_retriever) rfq_data).1

/-- The exception class signalled by a computation, if it failed. -/
def exceptClass {α : Type} : Except PyError α → Option PyClass
  | Except.error e => some e.cls
  | Except.ok _ => none

/-- Whether a computation succeeded. -/
def exceptIsOk {α : Type} : Except PyError α → Bool
  | Except.ok _ => true
  | Except.error _ => false

/-- The enriched item at index i of a successful match result. -/
def enrichedAt (r : Except PyError EnrichedRFQ) (i : Nat) : Option EnrichedLineItem :=
  match r with
  | Except.ok out => out.line_items.get? i
  | Except.error _ => none

/-- The line items of a successful match result. -/
def okItems (r : Except PyError EnrichedRFQ) : Option (List EnrichedLineItem) :=
  match r with
  | Except.ok out => some out.line_items
  | Except.error _ => none

/-- The three failure kinds named by the service design. -/
inductive ServiceFailureKind where
  | noCatalogLoaded
  | catalogBuild
  | matchingFailure
deriving DecidableEq

/-- String begins-with test, via the underlying character lists. -/
def strStartsWith (p s : String) : Bool := p.data.isPrefixOf s.data

/-- A caller-side discriminator working from the signalled error alone:
the `ValueError` class identifies the missing-catalog failure, and the two
failures raised as the generic `Exception` class are told apart only by
their fixed message prefixes. -/
def classify_failure (e : PyError) : Option ServiceFailureKind :=
  if e.cls = PyClass.valueError then some ServiceFailureKind.noCatalogLoaded
  else if strStartsWith "Error creating catalog index: " e.msg then
    some ServiceFailureKind.catalogBuild
  else if strStartsWith "Error matching SKUs: " e.msg then
    some ServiceFailureKind.matchingFailure
  else none

/-- The operations a caller can invoke on the service (initialize is a
no-op `pass` and is omitted); `matchCall` leaves the state untouched
because match_line_items assigns no attribute of `self`. -/
inductive ServiceOp where
  | loadCatalog (engine : IndexEngine) (df : DataFrame)
  | matchCall (rfq_data : RFQOutput)

/-- State after one operation. -/
def applyOp (svc : SKUMatcherService) : ServiceOp → SKUMatcherService
  | ServiceOp.loadCatalog engine df => (create_catalog_index engine svc df).2
  | ServiceOp.matchCall _ => svc

/-- Enrich a list of items where the item at read position k uses the
candidate list `L k` — the per-read-position reference semantics of the
loop. -/
def enrichWith (L : Nat → List RetrievedNode) : Nat → List RFQLineItem → List EnrichedLineItem
  | _, [] => []
  | k, item :: rest => enrich_item item (L k) :: enrichWith L (k + 1) rest

/-- Sample date used by concrete runs. -/
def sampleDate : PyDate := { year := 2024, month := 1, day := 1 }

/-- Sample line item 1. -/
def item1 : RFQLineItem :=
  { rfq_id := "RFQ-1", line_item := "q1", quantity := 100, unit_price := 1, date_ := sampleDate }

/-- Sample line item 2. -/
def item2 : RFQLineItem :=
  { rfq_id := "RFQ-1", line_item := "q2", quantity := 2, unit_price := 3, date_ := sampleDate }

/-- One-item batch. -/
def rfqSample : RFQOutput := { line_items := [item1] }

/-- Two-item batch. -/
def rfq2 : RFQOutput := { line_items := [item1, item2] }

/-- Metadata of catalog entry A. -/
def metaA : DocMetadata :=
  { sku := some "A-1", standard_name := some "Steel Bolt", category := some "Fasteners"
    manufacturer := some "Acme", unit_price := some 1 }

/-- Metadata of catalog entry B. -/
def metaB : DocMetadata :=
  { sku := some "B-2", standard_name := some "Brass Nut", category := some "Fasteners"
    manufacturer := some "Bolt Co", unit_price := some 2 }

/-- Candidate node for entry A, score 1. -/
def nodeA : RetrievedNode := { metadata := metaA, score := some 1 }

/-- Candidate node for entry B, no score. -/
def nodeB : RetrievedNode := { metadata := metaB, score := none }

/-- Retriever that always returns entry A. -/
def retrA : Retriever := fun _ => Except.ok [nodeA]

/-- Retriever that always returns entry B. -/
def retrB : Retriever := fun _ => Except.ok [nodeB]

/-- Retriever whose every call raises. -/
def retrFail : Retriever := fun _ => Except.error "retrieval timeout"

/-- Read history of a run where a new catalog is installed between the
first and the second per-item read: reads 0 and 1 see the original
retriever, read 2 onward sees the replacement. -/
def fieldSwap : Nat → Option Retriever :=
  fun k => if k ≤ 1 then some retrA else some retrB

/-- A catalog DataFrame with all required columns and one row. -/
def dfSample : DataFrame :=
  { columns := ["sku", "standard_name", "category", "manufacturer", "description", "unit_price"]
    rows := [{ sku := "A-1", standard_name := "Steel Bolt", category := "Fasteners"
               manufacturer := "Acme", description := "M8 bolt", unit_price := 1 }] }

/-- A catalog DataFrame missing every required column. -/
def dfNoCols : DataFrame := { columns := ["foo"], rows := [] }

/-- Engine that rejects every document list. -/
def engineReject : IndexEngine := fun _ => Except.error "engine rejected entry"

/-- Engine that builds the constant retriever for entry A. -/
def engineOk : IndexEngine := fun _ => Except.ok retrA

/-- Service state with a loaded catalog whose retrievals all fail. -/
def svcFail : SKUMatcherService :=
  { settings := get_settings, catalog_retriever := some retrFail }

/-- Service state with entry A loaded. -/
def svcA : SKUMatcherService :=
  { settings := get_settings, catalog_retriever := some retrA }

/-- Candidate node for entry A with the out-of-range score 37.2 (= 186/5). -/
def nodeHigh : RetrievedNode := { metadata := metaA, score := some (mkRat 186 5) }

/-- Deterministic engine result: query q1 finds the high-scored candidate,
every other query finds nothing. -/
def fTotal : String → List RetrievedNode :=
  fun q => if q = "q1" then [nodeHigh] else []

/-- Service state whose loaded retriever never raises and answers with
`fTotal`. -/
def svcTotal : SKUMatcherService :=
  { settings := get_settings, catalog_retriever := some (fun q => Except.ok (fTotal q)) }

/-- Retriever that raises on query q2 and answers entry A otherwise. -/
def retrFailQ2 : Retriever :=
  fun q => if q = "q2" then Except.error "retrieval timeout" else Except.ok [nodeA]

/-- Service state with `retrFailQ2` loaded. -/
def svcFailQ2 : SKUMatcherService :=
  { settings := get_settings, catalog_retriever := some retrFailQ2 }

theorem clampConfidence_nonneg (q : ℚ) : 0 ≤ clampConfidence q :=
  le_max_left 0 _

theorem clampConfidence_le_one (q : ℚ) : clampConfidence q ≤ 1 :=
  max_le zero_le_one (min_le_left 1 q)

theorem clampConfidence_of_neg {q : ℚ} (h : q < 0) : clampConfidence q = 0 := by
  have h1 : min 1 q = q := min_eq_right (le_of_lt (lt_of_lt_of_le h zero_le_one))
  rw [clampConfidence, h1, max_eq_left (le_of_lt h)]

theorem clampConfidence_of_gt_one {q : ℚ} (h : 1 < q) : clampConfidence q = 1 := by
  rw [clampConfidence, min_eq_left (le_of_lt h), max_eq_right zero_le_one]

theorem clampConfidence_of_mem {q : ℚ} (h0 : 0 ≤ q) (h1 : q ≤ 1) : clampConfidence q = q := by
  rw [clampConfidence, min_eq_right h1, max_eq_right h0]

theorem match_go_total (field : Nat → Option Retriever) (r : Retriever)
    (f : String → List RetrievedNode)
    (hfield : ∀ j, field j = some r) (hr : ∀ q, r q = Except.ok (f q)) :
    ∀ (items : List RFQLineItem) (k : Nat),
      match_go field k items =
        (Except.ok (items.map (fun item => enrich_item item (f item.line_item))),
         items.map (fun item => item.line_item)) := by
  intro items
  induction items with
  | nil => intro k; rfl
  | cons item rest ih =>
      intro k
      simp only [match_go, hfield k, hr item.line_item, ih (k + 1), List.map_cons]

theorem match_line_items_total (svc : SKUMatcherService) (f : String → List RetrievedNode)
    (rfq_data : RFQOutput)
    (hr : svc.catalog_retriever = some (fun q => Except.ok (f q))) :
    match_line_items svc rfq_data =
      Except.ok ⟨rfq_data.line_items.map (fun item => enrich_item item (f item.line_item))⟩ := by
  have htot := match_go_total (fun _ => some (fun q => Except.ok (f q)))
    (fun q => Except.ok (f q)) f (fun _ => rfl) (fun _ => rfl) rfq_data.line_items 1
  unfold match_line_items match_line_items_env
  simp only [hr, Option.isSome_some, if_true]
  rw [htot]

theorem match_go_perRead (field : Nat → Option Retriever) (R : Nat → Retriever)
    (L : Nat → List RetrievedNode) :
    ∀ (items : List RFQLineItem) (k : Nat),
      (∀ j (h : j < items.length),
          field (k + j) = some (R (k + j)) ∧
          R (k + j) (items.get ⟨j, h⟩).line_item = Except.ok (L (k + j))) →
      match_go field k items =
        (Except.ok (enrichWith L k items), items.map (fun item => item.line_item)) := by
  intro items
  induction items with
  | nil => intro k _; rfl
  | cons item rest ih =>
      intro k h
      have h0 := h 0 (Nat.succ_pos rest.length)
      rw [Nat.add_zero] at h0
      simp only [List.get] at h0
      have hrest : ∀ j (hj : j < rest.length),
          field (k + 1 + j) = some (R (k + 1 + j)) ∧
          R (k + 1 + j) (rest.get ⟨j, hj⟩).line_item = Except.ok (L (k + 1 + j)) := by
        intro j hj
        have := h (j + 1) (Nat.succ_lt_succ hj)
        have heq : k + (j + 1) = k + 1 + j := by omega
        rw [heq] at this
        exact this
      simp only [match_go, h0.1, h0.2, ih (k + 1) hrest, enrichWith, List.map_cons]

theorem match_go_failFirst (field : Nat → Option Retriever) (r : Retriever)
    (hfield : ∀ j, field j = some r) (bad : RFQLineItem) (cause : String)
    (hbad : r bad.line_item = Except.error cause) :
    ∀ (pre post : List RFQLineItem) (k : Nat),
      (∀ item ∈ pre, ∃ lst, r item.line_item = Except.ok lst) →
      (match_go field k (pre ++ bad :: post)).1 = Except.error cause := by
  intro pre
  induction pre with
  | nil =>
      intro post k _
      simp only [List.nil_append, match_go, hfield k, hbad]
  | cons p rest ih =>
      intro post k hpre
      obtain ⟨lst, hlst⟩ := hpre p (List.mem_cons_self p rest)
      have hrest : ∀ item ∈ rest, ∃ l, r item.line_item = Except.ok l := by
        intro item hm
        exact hpre item (List.mem_cons_of_mem p hm)
      have := ih post (k + 1) hrest
      simp only [List.cons_append, match_go, hfield k, hlst]
      rcases hgo : match_go field (k + 1) (rest ++ bad :: post) with ⟨res, tr⟩
      rw [hgo] at this
      simp only at this
      subst this
      rfl

theorem strStartsWith_append (p rest : String) : strStartsWith p (p ++ rest) = true := by
  unfold strStartsWith
  rw [String.data_append]
  exact List.isPrefixOf_iff_prefix.mpr (List.prefix_append _ _)

theorem strStartsWith_false_of_incomparable (p m rest : String)
    (h1 : p.data.isPrefixOf m.data = false) (h2 : m.data.isPrefixOf p.data = false) :
    strStartsWith p (m ++ rest) = false := by
  unfold strStartsWith
  rw [String.data_append]
  cases hpv : p.data.isPrefixOf (m.data ++ rest.data) with
  | false => rfl
  | true =>
      exfalso
      have hp : p.data <+: m.data ++ rest.data := List.isPrefixOf_iff_prefix.mp hpv
      have hm : m.data <+: m.data ++ rest.data := List.prefix_append _ _
      rcases List.prefix_or_prefix_of_prefix hp hm with h | h
      · have := List.isPrefixOf_iff_prefix.mpr h
        rw [h1] at this
        exact Bool.noConfusion this
      · have := List.isPrefixOf_iff_prefix.mpr h
        rw [h2] at this
        exact Bool.noConfusion this

theorem classify_noCatalog (m : String) :
    classify_failure ⟨PyClass.valueError, m⟩ = some ServiceFailureKind.noCatalogLoaded := by
  unfold classify_failure
  rw [if_pos rfl]

theorem classify_build (cause : String) :
    classify_failure ⟨PyClass.exception, "Error creating catalog index: " ++ cause⟩ =
      some ServiceFailureKind.catalogBuild := by
  unfold classify_failure
  simp [strStartsWith_append]

theorem classify_matching (cause : String) :
    classify_failure ⟨PyClass.exception, "Error matching SKUs: " ++ cause⟩ =
      some ServiceFailureKind.matchingFailure := by
  have hfalse : strStartsWith "Error creating catalog index: " ("Error matching SKUs: " ++ cause) = false :=
    strStartsWith_false_of_incomparable _ _ cause (by decide) (by decide)
  unfold classify_failure
  simp [hfalse, strStartsWith_append]

/-- C2: for every batch with a loaded catalog and every raw score the
engine returns for the retrieved top candidate — including scores below 0,
above 1, or absent — the output item's match_confidence is exactly the raw
score clamped by truncation to [0,1] (absent score treated as 0), the call
does not error on out-of-range scores, and match_confidence is never null
(the Option is always `some`). -/
theorem claim2_theorem (svc : SKUMatcherService) (f : String → List RetrievedNode)
    (rfq_data : RFQOutput) (i : Nat) (top : RetrievedNode) (rest : List RetrievedNode)
    (hr : svc.catalog_retriever = some (fun q => Except.ok (f q)))
    (hi : i < rfq_data.line_items.length)
    (hf : f (rfq_data.line_items.get ⟨i, hi⟩).line_item = top :: rest) :
    exceptIsOk (match_line_items svc rfq_data) = true ∧
    (enrichedAt (match_line_items svc rfq_data) i).map (fun it => it.match_confidence) =
      some (some (clampConfidence (top.score.getD 0))) ∧
    0 ≤ clampConfidence (top.score.getD 0) ∧
    clampConfidence (top.score.getD 0) ≤ 1 ∧
    (top.score.getD 0 < 0 → clampConfidence (top.score.getD 0) = 0) ∧
    (1 < top.score.getD 0 → clampConfidence (top.score.getD 0) = 1) ∧
    (0 ≤ top.score.getD 0 → top.score.getD 0 ≤ 1 →
      clampConfidence (top.score.getD 0) = top.score.getD 0) ∧
    (top.score = none → clampConfidence (top.score.getD 0) = 0) := by
  have htot := match_line_items_total svc f rfq_data hr
  have hget : enrichedAt (match_line_items svc rfq_data) i =
      some (enrich_item (rfq_data.line_items.get ⟨i, hi⟩)
        (f (rfq_data.line_items.get ⟨i, hi⟩).line_item)) := by
    rw [htot]
    simp only [enrichedAt]
    rw [List.get?_map, List.get?_eq_get hi]
    rfl
  refine ⟨by rw [htot]; rfl, ?_, clampConfidence_nonneg _, clampConfidence_le_one _,
    fun hneg => clampConfidence_of_neg hneg, fun hgt => clampConfidence_of_gt_one hgt,
    fun ha hb => clampConfidence_of_mem ha hb, ?_⟩
  · rw [hget, hf]
    rfl
  · intro hnone
    rw [hnone]
    exact clampConfidence_of_mem le_rfl zero_le_one

/-- Witness for C2 at a concrete run: the engine reports the raw score
37.2 for the one retrieved candidate; the call succeeds and the output
confidence is its truncation, which is 1. -/
theorem claim2_witness :
    exceptIsOk (match_line_items svcTotal rfq2) = true ∧
    (enrichedAt (match_line_items svcTotal rfq2) 0).map (fun it => it.match_confidence) =
      some (some (clampConfidence ((some (mkRat 186 5) : Option ℚ).getD 0))) ∧
    clampConfidence ((some (mkRat 186 5) : Option ℚ).getD 0) = 1 := by
  have h := claim2_theorem svcTotal fTotal rfq2 0 nodeHigh [] rfl (by decide) (by decide)
  exact ⟨h.1, h.2.1, h.2.2.2.2.2.1 (by decide)⟩

/-- C3: with a loaded catalog whose retrievals all succeed, matchAll
returns exactly one enriched item per input item, in input order (the
output is literally the input list mapped through the per-item
enrichment), and the enrichment carries the five copy-through fields
(rfq_id, original_line_item, quantity, unit_price, date) over from the
input item unchanged, whatever the candidate list is. -/
theorem claim3_theorem (svc : SKUMatcherService) (f : String → List RetrievedNode)
    (rfq_data : RFQOutput)
    (hr : svc.catalog_retriever = some (fun q => Except.ok (f q))) :
    match_line_items svc rfq_data =
      Except.ok ⟨rfq_data.line_items.map (fun item => enrich_item item (f item.line_item))⟩ ∧
    ∀ (item : RFQLineItem) (nodes : List RetrievedNode),
      (enrich_item item nodes).rfq_id = item.rfq_id ∧
      (enrich_item item nodes).original_line_item = item.line_item ∧
      (enrich_item item nodes).quantity = item.quantity ∧
      (enrich_item item nodes).unit_price = some item.unit_price ∧
      (enrich_item item nodes).date_ = item.date_ := by
  refine ⟨match_line_items_total svc f rfq_data hr, ?_⟩
  intro item nodes
  cases nodes with
  | nil => exact ⟨rfl, rfl, rfl, rfl, rfl⟩
  | cons t r => exact ⟨rfl, rfl, rfl, rfl, rfl⟩

/-- Witness for C3 at a concrete two-item run: the result is the input
list mapped through the enrichment, one output per input in order. -/
theorem claim3_witness :
    match_line_items svcTotal rfq2 =
      Except.ok ⟨[enrich_item item1 (fTotal item1.line_item),
                  enrich_item item2 (fTotal item2.line_item)]⟩ :=
  (claim3_theorem svcTotal fTotal rfq2 rfl).1

/-- C4: if no catalog has ever been loaded (the held reference is None),
match_line_items raises the no-catalog ValueError of line 69 before the
loop, issuing zero retrieval calls (empty query trace) and producing no
partial output. -/
theorem claim4_theorem (svc : SKUMatcherService) (rfq_data : RFQOutput)
    (h : svc.catalog_retriever = none) :
    match_line_items_env (fun _ => svc.catalog_retriever) rfq_data =
      (Except.error ⟨PyClass.valueError, "Product catalog not loaded"⟩, []) ∧
    match_line_items svc rfq_data =
      Except.error ⟨PyClass.valueError, "Product catalog not loaded"⟩ := by
  constructor
  · unfold match_line_items_env
    simp [h]
  · unfold match_line_items match_line_items_env
    simp [h]

/-- Witness for C4: the freshly constructed service has no catalog, and a
one-item batch fails fast with the ValueError and an empty query trace. -/
theorem claim4_witness :
    match_line_items_env (fun _ => mkSKUMatcherService.catalog_retriever) rfqSample =
      (Except.error ⟨PyClass.valueError, "Product catalog not loaded"⟩, []) :=
  (claim4_theorem mkSKUMatcherService rfqSample rfl).1

/-- C5: when the retriever returns an empty candidate list for an item,
the corresponding output item has all four match fields None, carries the
input fields through, and has match_confidence equal to the explicit
`some 0` (zero, not null); the call itself succeeds. -/
theorem claim5_theorem (svc : SKUMatcherService) (f : String → List RetrievedNode)
    (rfq_data : RFQOutput) (i : Nat)
    (hr : svc.catalog_retriever = some (fun q => Except.ok (f q)))
    (hi : i < rfq_data.line_items.length)
    (hempty : f (rfq_data.line_items.get ⟨i, hi⟩).line_item = []) :
    exceptIsOk (match_line_items svc rfq_data) = true ∧
    enrichedAt (match_line_items svc rfq_data) i =
      some { rfq_id := (rfq_data.line_items.get ⟨i, hi⟩).rfq_id
             original_line_item := (rfq_data.line_items.get ⟨i, hi⟩).line_item
             quantity := (rfq_data.line_items.get ⟨i, hi⟩).quantity
             unit_price := some (rfq_data.line_items.get ⟨i, hi⟩).unit_price
             date_ := (rfq_data.line_items.get ⟨i, hi⟩).date_
             matched_sku := none
             standard_name := none
             category := none
             manufacturer := none
             match_confidence := some 0 } := by
  have htot := match_line_items_total svc f rfq_data hr
  constructor
  · rw [htot]; rfl
  · rw [htot]
    simp only [enrichedAt]
    rw [List.get?_map, List.get?_eq_get hi]
    simp only [Option.map_some']
    rw [hempty]
    rfl

/-- Witness for C5 at a concrete run: the second item's query finds no
candidates, and its output row has the four match fields None with
confidence `some 0`. -/
theorem claim5_witness :
    enrichedAt (match_line_items svcTotal rfq2) 1 =
      some { rfq_id := item2.rfq_id
             original_line_item := item2.line_item
             quantity := item2.quantity
             unit_price := some item2.unit_price
             date_ := item2.date_
             matched_sku := none
             standard_name := none
             category := none
             manufacturer := none
             match_confidence := some 0 } :=
  (claim5_theorem svcTotal fTotal rfq2 1 rfl (by decide) (by decide)).2

/-- C6: whenever index construction fails — required columns missing, or
the engine raising on the build — create_catalog_index signals the
catalog-build failure (generic Exception, message prefixed with
"Error creating catalog index: ") and the service state is exactly the
state before the call: no partial index is installed, the previously held
retriever is untouched, is_catalog_loaded is unchanged, and every
subsequent match_line_items call behaves as before the failed upload. -/
theorem claim6_theorem (engine : IndexEngine) (svc : SKUMatcherService) (df : DataFrame)
    (hfail : missing_columns svc df ≠ [] ∨
      ∃ e, create_product_catalog_index engine df.rows = Except.error e) :
    (create_catalog_index engine svc df).2 = svc ∧
    exceptClass (create_catalog_index engine svc df).1 = some PyClass.exception ∧
    (∃ cause, (create_catalog_index engine svc df).1 =
        Except.error ⟨PyClass.exception, "Error creating catalog index: " ++ cause⟩) ∧
    is_catalog_loaded (create_catalog_index engine svc df).2 = is_catalog_loaded svc ∧
    (∀ rfq_data, match_line_items (create_catalog_index engine svc df).2 rfq_data =
        match_line_items svc rfq_data) := by
  have key : (create_catalog_index engine svc df).2 = svc ∧
      ∃ cause, (create_catalog_index engine svc df).1 =
        Except.error ⟨PyClass.exception, "Error creating catalog index: " ++ cause⟩ := by
    unfold create_catalog_index
    by_cases hm : missing_columns svc df ≠ []
    · rw [if_pos hm]
      exact ⟨rfl,
        "Missing required columns: " ++ String.intercalate ", " (missing_columns svc df), rfl⟩
    · rw [if_neg hm]
      rcases hfail with hm2 | ⟨e, he⟩
      · exact absurd hm2 hm
      · rw [he]
        exact ⟨rfl, e, rfl⟩
  obtain ⟨h2, cause, h1⟩ := key
  refine ⟨h2, ?_, ⟨cause, h1⟩, by rw [h2], fun rfq_data => by rw [h2]⟩
  rw [h1]
  rfl

/-- Witness for C6: a concrete upload on which the engine rejects the
documents leaves the fresh (empty) service state untouched and signals the
generic Exception. -/
theorem claim6_witness :
    (create_catalog_index engineReject mkSKUMatcherService dfSample).2 = mkSKUMatcherService ∧
    exceptClass (create_catalog_index engineReject mkSKUMatcherService dfSample).1 =
      some PyClass.exception ∧
    is_catalog_loaded (create_catalog_index engineReject mkSKUMatcherService dfSample).2 =
      is_catalog_loaded mkSKUMatcherService := by
  have h := claim6_theorem engineReject mkSKUMatcherService dfSample
    (Or.inr ⟨"engine rejected entry", rfl⟩)
  exact ⟨h.1, h.2.1, h.2.2.2.1⟩

/-- C7: if some item's retrieval raises while all items before it
succeeded, the whole batch aborts with the generic matching Exception
wrapping the underlying cause; the result is that single error, so no
partial enriched output is returned for the items processed before the
failure. -/
theorem claim7_theorem (svc : SKUMatcherService) (r : Retriever) (rfq_data : RFQOutput)
    (pre post : List RFQLineItem) (bad : RFQLineItem) (cause : String)
    (hr : svc.catalog_retriever = some r)
    (hitems : rfq_data.line_items = pre ++ bad :: post)
    (hpre : ∀ item ∈ pre, ∃ lst, r item.line_item = Except.ok lst)
    (hbad : r bad.line_item = Except.error cause) :
    match_line_items svc rfq_data =
      Except.error ⟨PyClass.exception, "Error matching SKUs: " ++ cause⟩ := by
  have hfail := match_go_failFirst (fun _ => some r) r (fun _ => rfl)
    bad cause hbad pre post 1 hpre
  unfold match_line_items match_line_items_env
  rw [hitems]
  simp only [hr, Option.isSome_some, if_true]
  rcases hgo : match_go (fun _ => some r) 1 (pre ++ bad :: post) with ⟨res, tr⟩
  rw [hgo] at hfail
  simp only at hfail
  subst hfail
  rfl

/-- Witness for C7: a concrete two-item batch whose first retrieval
succeeds and whose second raises; the call returns only the wrapped
matching Exception. -/
theorem claim7_witness :
    match_line_items svcFailQ2 rfq2 =
      Except.error ⟨PyClass.exception, "Error matching SKUs: " ++ "retrieval timeout"⟩ := by
  have hpre : ∀ item ∈ [item1], ∃ lst, retrFailQ2 item.line_item = Except.ok lst := by
    intro item hm
    rw [List.mem_singleton] at hm
    subst hm
    exact ⟨[nodeA], rfl⟩
  exact claim7_theorem svcFailQ2 retrFailQ2 rfq2 [item1] [] item2 "retrieval timeout"
    rfl rfl hpre rfl

/-- C9: a successful create_catalog_index call on a non-empty catalog
returns the number of catalog rows, and is_catalog_loaded is true on the
resulting state. -/
theorem claim9_theorem (engine : IndexEngine) (svc : SKUMatcherService) (df : DataFrame)
    (n : Nat) (hne : df.rows ≠ [])
    (hok : (create_catalog_index engine svc df).1 = Except.ok n) :
    n = df.rows.length ∧
    is_catalog_loaded (create_catalog_index engine svc df).2 = true := by
  unfold create_catalog_index at hok ⊢
  by_cases hm : missing_columns svc df ≠ []
  · rw [if_pos hm] at hok
    exact absurd hok (by simp)
  · rw [if_neg hm] at hok ⊢
    rcases hb : create_product_catalog_index engine df.rows with e | retriever
    · rw [hb] at hok
      exact Except.noConfusion hok
    · rw [hb] at hok
      have hlen : df.rows.length = n := Except.ok.inj hok
      exact ⟨hlen.symm, rfl⟩

/-- Witness for C9: loading the one-row sample catalog through a
succeeding engine returns count 1 and leaves the catalog loaded. -/
theorem claim9_witness :
    (1 : Nat) = dfSample.rows.length ∧
    is_catalog_loaded (create_catalog_index engineOk mkSKUMatcherService dfSample).2 = true :=
  claim9_theorem engineOk mkSKUMatcherService dfSample 1 (by decide) rfl

/-- Loading a catalog never clears the held index: on failure the state is
unchanged, on success the index is replaced by the new one; either way a
loaded service stays loaded. -/
theorem create_catalog_index_keeps_loaded (engine : IndexEngine) (svc : SKUMatcherService)
    (df : DataFrame) (h : is_catalog_loaded svc = true) :
    is_catalog_loaded (create_catalog_index engine svc df).2 = true := by
  unfold create_catalog_index
  by_cases hm : missing_columns svc df ≠ []
  · rw [if_pos hm]
    exact h
  · rw [if_neg hm]
    cases hb : create_product_catalog_index engine df.rows with
    | error e => exact h
    | ok retriever => rfl

/-- C10: the catalog-loaded state is monotone.  Once is_catalog_loaded is
true, it stays true after any sequence of service operations — catalog
uploads that succeed, uploads that fail (the state is untouched), and
match calls (match_line_items assigns no attribute of the service); no
operation resets the held reference to None and there is no unload. -/
theorem claim10_theorem (svc : SKUMatcherService) (ops : List ServiceOp)
    (h : is_catalog_loaded svc = true) :
    is_catalog_loaded (ops.foldl applyOp svc) = true := by
  induction ops generalizing svc with
  | nil => exact h
  | cons op rest ih =>
      simp only [List.foldl]
      cases op with
      | loadCatalog engine df =>
          exact ih _ (create_catalog_index_keeps_loaded engine svc df h)
      | matchCall rfq_data => exact ih _ h

/-- Witness for C10: a loaded service stays loaded across a failing
upload, a match call, and a succeeding upload. -/
theorem claim10_witness :
    is_catalog_loaded
      ([ServiceOp.loadCatalog engineReject dfNoCols,
        ServiceOp.matchCall rfqSample,
        ServiceOp.loadCatalog engineOk dfSample].foldl applyOp svcA) = true :=
  claim10_theorem svcA
    [ServiceOp.loadCatalog engineReject dfNoCols,
     ServiceOp.matchCall rfqSample,
     ServiceOp.loadCatalog engineOk dfSample] rfl

/-- C1 counterexample.  The claim says the catalog index reference is
captured once at the start of a matchAll batch and an in-flight call's
outcome is unchanged by a mid-batch catalog replacement.  In the code,
line 74 re-reads self.catalog_retriever on every iteration: in the
concrete two-item run `fieldSwap`, a new catalog (retrB) is installed
between the first and the second per-item read, and the call's outcome
differs from the run that keeps the starting snapshot retrA throughout —
the second item is matched against the replacement index. -/
theorem claim1_counterexample :
    okItems (match_line_items_env fieldSwap rfq2).1 ≠
      okItems (match_line_items_env (fun _ => some retrA) rfq2).1 := by
  decide

/-- C1 as amended: the index reference is re-read at every per-item step,
so each item of the batch is matched against whatever retriever the
attribute holds at that item's own read (read k for the item at position
k), not against a snapshot captured at the start; a mid-batch replacement
therefore affects exactly the items retrieved after it, while items
retrieved before the swap used the earlier index. -/
theorem claim1_theorem (field : Nat → Option Retriever) (R : Nat → Retriever)
    (L : Nat → List RetrievedNode) (rfq_data : RFQOutput)
    (h0 : (field 0).isSome = true)
    (hfield : ∀ j, j < rfq_data.line_items.length → field (j + 1) = some (R (j + 1)))
    (hok : ∀ j (h : j < rfq_data.line_items.length),
        R (j + 1) (rfq_data.line_items.get ⟨j, h⟩).line_item = Except.ok (L (j + 1))) :
    (match_line_items_env field rfq_data).1 =
      Except.ok ⟨enrichWith L 1 rfq_data.line_items⟩ := by
  have hgo := match_go_perRead field R L rfq_data.line_items 1 (by
    intro j hj
    have heq : 1 + j = j + 1 := Nat.add_comm 1 j
    rw [heq]
    exact ⟨hfield j hj, hok j hj⟩)
  unfold match_line_items_env
  rw [h0]
  simp only [if_true]
  rw [hgo]

/-- Witness for the amended C1 at a concrete run: with the swap history
`fieldSwap`, item 1 is enriched against the list returned at read 1 (from
retrA) and item 2 against the list returned at read 2 (from retrB). -/
theorem claim1_witness :
    (match_line_items_env fieldSwap rfq2).1 =
      Except.ok ⟨enrichWith (fun k => if k ≤ 1 then [nodeA] else [nodeB]) 1 rfq2.line_items⟩ :=
  claim1_theorem fieldSwap
    (fun k => if k ≤ 1 then retrA else retrB)
    (fun k => if k ≤ 1 then [nodeA] else [nodeB])
    rfq2 rfl
    (by
      intro j hj
      have hlen : rfq2.line_items.length = 2 := rfl
      rw [hlen] at hj
      interval_cases j
      · rfl
      · rfl)
    (by
      intro j hj
      have hlen : rfq2.line_items.length = 2 := rfl
      rw [hlen] at hj
      interval_cases j
      · rfl
      · rfl)

/-- C8 counterexample.  The claim says the three failures are surfaced as
distinct, inspectable failure kinds (not a single generic failure), so the
caller can tell which occurred from the signalled error alone.  In the
code the failure kind is the raised exception class, and a catalog-build
failure (line 62) and a mid-batch matching failure (line 111) are both
raised as the single generic `Exception` class: the two concrete runs
below signal errors of the same class, so the kind does not identify which
of the three failures occurred. -/
theorem claim8_counterexample :
    exceptClass (create_catalog_index engineReject mkSKUMatcherService dfSample).1 =
      some PyClass.exception ∧
    exceptClass (match_line_items svcFail rfqSample) = some PyClass.exception :=
  ⟨rfl, rfl⟩

/-- C8 as amended: the three failures are distinguishable from the
signalled error value, but only by combining the exception class with the
fixed message prefixes — the `ValueError` class alone identifies the
missing-catalog failure, while catalog-build and matching failures share
the generic `Exception` class and are told apart by whether the message
starts with "Error creating catalog index: " or "Error matching SKUs: ".
The discriminator classify_failure recovers the failure kind from every
error the service signals. -/
theorem claim8_theorem :
    (∀ (engine : IndexEngine) (svc : SKUMatcherService) (df : DataFrame) (e : PyError),
        (create_catalog_index engine svc df).1 = Except.error e →
        classify_failure e = some ServiceFailureKind.catalogBuild) ∧
    (∀ (field : Nat → Option Retriever) (rfq_data : RFQOutput) (e : PyError),
        field 0 = none →
        (match_line_items_env field rfq_data).1 = Except.error e →
        classify_failure e = some ServiceFailureKind.noCatalogLoaded) ∧
    (∀ (field : Nat → Option Retriever) (rfq_data : RFQOutput) (e : PyError),
        (field 0).isSome = true →
        (match_line_items_env field rfq_data).1 = Except.error e →
        classify_failure e = some ServiceFailureKind.matchingFailure) := by
  refine ⟨?_, ?_, ?_⟩
  · intro engine svc df e he
    unfold create_catalog_index at he
    by_cases hm : missing_columns svc df ≠ []
    · rw [if_pos hm] at he
      have hval : Except.error (ε := PyError) (α := Nat)
          ⟨PyClass.exception, "Error creating catalog index: " ++
            ("Missing required columns: " ++
              String.intercalate ", " (missing_columns svc df))⟩ = Except.error e := he
      rw [← Except.error.inj hval]
      exact classify_build _
    · rw [if_neg hm] at he
      rcases hb : create_product_catalog_index engine df.rows with cause | retriever
      · rw [hb] at he
        have hval : Except.error (ε := PyError) (α := Nat)
            ⟨PyClass.exception, "Error creating catalog index: " ++ cause⟩ =
              Except.error e := he
        rw [← Except.error.inj hval]
        exact classify_build cause
      · rw [hb] at he
        exact Except.noConfusion he
  · intro field rfq_data e h0 he
    unfold match_line_items_env at he
    rw [h0] at he
    have hval : Except.error (ε := PyError) (α := EnrichedRFQ)
        ⟨PyClass.valueError, "Product catalog not loaded"⟩ = Except.error e := he
    rw [← Except.error.inj hval]
    exact classify_noCatalog _
  · intro field rfq_data e h0 he
    unfold match_line_items_env at he
    rw [h0] at he
    simp only [if_true] at he
    rcases hgo : match_go field 1 rfq_data.line_items with ⟨res, tr⟩
    rw [hgo] at he
    cases res with
    | error cause =>
        have hval : Except.error (ε := PyError) (α := EnrichedRFQ)
            ⟨PyClass.exception, "Error matching SKUs: " ++ cause⟩ = Except.error e := he
        rw [← Except.error.inj hval]
        exact classify_matching cause
    | ok items => exact Except.noConfusion he

/-- Witness for the amended C8: the discriminator recovers the kind of a
concrete error of each of the three failure shapes the service signals. -/
theorem claim8_witness :
    classify_failure ⟨PyClass.exception, "Error creating catalog index: engine rejected entry"⟩ =
      some ServiceFailureKind.catalogBuild ∧
    classify_failure ⟨PyClass.valueError, "Product catalog not loaded"⟩ =
      some ServiceFailureKind.noCatalogLoaded ∧
    classify_failure ⟨PyClass.exception, "Error matching SKUs: retrieval timeout"⟩ =
      some ServiceFailureKind.matchingFailure :=
  ⟨claim8_theorem.1 engineReject mkSKUMatcherService dfSample _ rfl,
   claim8_theorem.2.1 (fun _ => none) rfqSample _ rfl rfl,
   claim8_theorem.2.2 (fun _ => some retrFail) rfqSample _ rfl rfl⟩
